import Mathlib

/-!
Verification development for the `slogging` package: a level registry
(ordered catalogue of slog levels with case-insensitive name lookup), a
logger factory (`Create` / `SetDefaults`, plus `Fatal`), and a dynamic
level-control HTTP handler (`logHandler.ServeHTTP`).

The repository contains two variants of the control handler:
* the catalogue variant (`part_000` / `part_001`): PUT/POST parses the
  last path segment with `ParseLevel` against the closed catalogue and
  the 400 body lists the catalogue via `LevelsString`;
* the text variant (`log.go`): PUT/POST parses with
  `slog.Level.UnmarshalText`, which also accepts named anchors with
  numeric offsets such as `ERROR+8`, and the 400 body is
  `unknown log level %q`.

Both are embedded below. Machine integers are modelled as `Int`
(a `slog.Level` is an `int`); strings are Lean `String`s. Go's
`strings.ToLower` / `strings.ToUpper` are modelled on ASCII, which is
faithful for every catalogue name and every ASCII input; the catalogue
keys themselves are ASCII.
-/

namespace Slogging

/-- ASCII lowercasing of one character, as Go `strings.ToLower` acts on
ASCII input. -/
def toLowerChar (c : Char) : Char :=
  if 'A' ≤ c ∧ c ≤ 'Z' then Char.ofNat (c.toNat + 32) else c

/-- ASCII uppercasing of one character, as Go `strings.ToUpper` acts on
ASCII input. -/
def toUpperChar (c : Char) : Char :=
  if 'a' ≤ c ∧ c ≤ 'z' then Char.ofNat (c.toNat - 32) else c

/-- Models `strings.ToLower` (ASCII fragment). -/
def goToLower (s : String) : String := ⟨s.data.map toLowerChar⟩

/-- Models `strings.ToUpper` (ASCII fragment). -/
def goToUpper (s : String) : String := ⟨s.data.map toUpperChar⟩

/-- `slog.LevelDebug`. -/
def LevelDebug : Int := -4
/-- `slog.LevelInfo`. -/
def LevelInfo : Int := 0
/-- `slog.LevelWarn`. -/
def LevelWarn : Int := 4
/-- `slog.LevelError`. -/
def LevelError : Int := 8

/-- The ordered catalogue `levels = []slog.Level{LevelDebug, LevelInfo,
LevelWarn, LevelError}`. -/
def levels : List Int := [LevelDebug, LevelInfo, LevelWarn, LevelError]

/-- Models `slog.Level.String()`: the nearest lower anchor name plus a
signed decimal offset (`fmt.Sprintf("%s%+d", base, val)` when the offset
is nonzero). -/
def levelString (l : Int) : String :=
  let str : String → Int → String := fun base val =>
    if val = 0 then base
    else if 0 < val then base ++ "+" ++ toString val
    else base ++ toString val
  if l < LevelInfo then str "DEBUG" (l - LevelDebug)
  else if l < LevelWarn then str "INFO" (l - LevelInfo)
  else if l < LevelError then str "WARN" (l - LevelWarn)
  else str "ERROR" (l - LevelError)

/-- The `levelMap` built by the package `init` function: for each
catalogue level, `strings.ToLower(level.String())` maps to the level.
A Go map with distinct keys is modelled as an association list. -/
def levelMap : List (String × Int) :=
  levels.map (fun level => (goToLower (levelString level), level))

/-- `ParseLevel(s)`: case-insensitive lookup in `levelMap`; a missing key
yields the zero value and `false`, as a Go map read does. -/
def ParseLevel (s : String) : Int × Bool :=
  match levelMap.lookup (goToLower s) with
  | some level => (level, true)
  | none => (0, false)

/-- `LevelsString()`: the canonical names joined by `", "`. -/
def LevelsString : String := String.intercalate ", " (levels.map levelString)

/-- Models `strings.Split(s, sep)` for a one-character separator, on the
character list of `s`: Go's `Split` always returns at least one (possibly
empty) piece. -/
def goSplitList (sep : Char) : List Char → List String
  | [] => [""]
  | c :: rest =>
    match goSplitList sep rest with
    | [] => [""]
    | g :: gs =>
      if c = sep then "" :: g :: gs
      else (String.singleton c ++ g) :: gs

/-- `strings.Split(path, "/")`. -/
def goSplit (path : String) : List String := goSplitList '/' path.data

/-- ASCII decimal digit test, as `strconv.Atoi` accepts. -/
def isDigitChar (c : Char) : Bool := decide ('0' ≤ c ∧ c ≤ '9')

/-- Decimal value of a digit string. -/
def digitsToNat (ds : List Char) : Nat :=
  ds.foldl (fun acc c => acc * 10 + (c.toNat - Char.toNat '0')) 0

/-- Models `strconv.Atoi`: an optional sign followed by at least one
digit; anything else is an error (`none`). The model is unbounded, which
is faithful on every input whose value fits a 64-bit int. -/
def atoi (s : String) : Option Int :=
  match s.data with
  | [] => none
  | '+' :: ds =>
    if ds ≠ [] ∧ ds.all isDigitChar then some (digitsToNat ds) else none
  | '-' :: ds =>
    if ds ≠ [] ∧ ds.all isDigitChar then some (-(digitsToNat ds : Int)) else none
  | ds =>
    if ds.all isDigitChar then some (digitsToNat ds) else none

/-- Models `strings.IndexAny(s, "+-")`: index of the first `+` or `-`. -/
def indexAnyPM : List Char → Option Nat
  | [] => none
  | c :: rest =>
    if c = '+' ∨ c = '-' then some 0
    else (indexAnyPM rest).map (fun n => n + 1)

/-- Models `slog.Level.UnmarshalText` (that is, `Level.parse`): split the
input at the first `+` or `-` into an anchor name and a decimal offset,
uppercase the name, match it against the four anchors, and add the
offset; any failure is an error (`none`). -/
def unmarshalLevel (s : String) : Option Int :=
  let iOpt := indexAnyPM s.data
  let name : String :=
    match iOpt with
    | none => s
    | some i => ⟨s.data.take i⟩
  let offset : Option Int :=
    match iOpt with
    | none => some 0
    | some i => atoi ⟨s.data.drop i⟩
  match offset with
  | none => none
  | some off =>
    if goToUpper name = "DEBUG" then some (LevelDebug + off)
    else if goToUpper name = "INFO" then some (LevelInfo + off)
    else if goToUpper name = "WARN" then some (LevelWarn + off)
    else if goToUpper name = "ERROR" then some (LevelError + off)
    else none

/-- The `logHandler` struct: the captured initial level and the value held
by the shared `slog.LevelVar` cell. In this sequential embedding the
cell's contents are carried as a field and each request returns the
updated handler state. -/
structure LogHandler where
  init : Int
  current : Int
deriving DecidableEq, Repr

/-- An HTTP request, as far as the handler can see it: `r.Method`,
`r.URL.Path`, and the parts the handler never reads (query, headers,
body). -/
structure Request where
  method : String
  path : String
  query : String
  headers : List (String × String)
  body : String
deriving DecidableEq, Repr

/-- The observable outcome of one `ServeHTTP` call: response status and
body, the handler state afterwards (carrying the shared cell's new
value), and the info-level record emitted, if any, as a
(message, newLevel-attribute) pair. -/
structure Outcome where
  status : Nat
  body : String
  handler : LogHandler
  infoLog : Option (String × String)
deriving DecidableEq, Repr

/-- `logHandler.ServeHTTP` of the catalogue variant (`part_000` /
`part_001`): PUT/POST parses the last `/`-delimited path segment with
`ParseLevel` and the 400 body lists the catalogue. `%q` on the inputs
arising here (no characters needing escaping) is plain double-quoting. -/
def ServeHTTPCat (h : LogHandler) (r : Request) : Outcome :=
  if r.method = "GET" then
    { status := 200, body := levelString h.current, handler := h, infoLog := none }
  else if r.method = "PUT" ∨ r.method = "POST" then
    let xs := goSplit r.path
    if xs.length = 0 then
      { status := 400,
        body := "specify log level as last part of the URL, e.g. PUT /log/debug",
        handler := h, infoLog := none }
    else
      let x := xs.getLastD ""
      let p := ParseLevel x
      if p.2 = false then
        { status := 400,
          body := "unknown log level \"" ++ x ++ "\", specify one of " ++ LevelsString,
          handler := h, infoLog := none }
      else
        { status := 202, body := "",
          handler := { h with current := p.1 },
          infoLog := some ("log level set", levelString p.1) }
  else if r.method = "DELETE" then
    { status := 202, body := "",
      handler := { h with current := h.init },
      infoLog := some ("log level reset", levelString h.init) }
  else
    { status := 405, body := "", handler := h, infoLog := none }

/-- `logHandler.ServeHTTP` of the text variant (`log.go`): PUT/POST
parses the last path segment with `slog.Level.UnmarshalText` and the 400
body is `unknown log level %q`. -/
def ServeHTTPText (h : LogHandler) (r : Request) : Outcome :=
  if r.method = "GET" then
    { status := 200, body := levelString h.current, handler := h, infoLog := none }
  else if r.method = "PUT" ∨ r.method = "POST" then
    let xs := goSplit r.path
    if xs.length = 0 then
      { status := 400,
        body := "specify log level as last part of the URL, e.g. PUT /log/debug",
        handler := h, infoLog := none }
    else
      let lastPart := xs.getLastD ""
      match unmarshalLevel lastPart with
      | none =>
        { status := 400,
          body := "unknown log level \"" ++ lastPart ++ "\"",
          handler := h, infoLog := none }
      | some lvl =>
        { status := 202, body := "",
          handler := { h with current := lvl },
          infoLog := some ("log level set", levelString lvl) }
  else if r.method = "DELETE" then
    { status := 202, body := "",
      handler := { h with current := h.init },
      infoLog := some ("log level reset", levelString h.init) }
  else
    { status := 405, body := "", handler := h, infoLog := none }

/-- `slog.HandlerOptions` as `Create` consumes it: the initial level (the
`Leveler`'s fixed value) and `AddSource`. `ReplaceAttr` is an opaque
function copied through unchanged by `Create` and consulted by nothing
this development states, so it is omitted from the model. -/
structure HandlerOptions where
  level : Int
  addSource : Bool
deriving DecidableEq, Repr

/-- The logger `Create` builds: a handle on the shared cell's initial
value plus the construction-time configuration (`AddSource`, text vs
JSON encoding, static attributes). -/
structure SLogger where
  minLevelInit : Int
  addSource : Bool
  jsonOutput : Bool
  attrs : List (String × String)
deriving DecidableEq, Repr

/-- `Create(opts, jsonOutput, attrs...)`: seeds a fresh `LevelVar` cell
with `opts.Level.Level()` and returns the logger bound to that cell
together with a `logHandler` capturing the same value as `init` and
holding the cell. -/
def Create (opts : HandlerOptions) (jsonOutput : Bool)
    (attrs : List (String × String)) : SLogger × LogHandler :=
  ({ minLevelInit := opts.level, addSource := opts.addSource,
     jsonOutput := jsonOutput, attrs := attrs },
   { init := opts.level, current := opts.level })

/-- The process-wide mutable state the package can touch: the default
logger slot written by `slog.SetDefault`. -/
structure GlobalState where
  defaultLogger : Option SLogger
deriving DecidableEq, Repr

/-- State-passing embedding of `Create`: its Go body calls no
state-mutating operation (in particular not `slog.SetDefault`), so the
global state passes through unchanged. -/
def CreateW (opts : HandlerOptions) (jsonOutput : Bool)
    (attrs : List (String × String)) (g : GlobalState) :
    (SLogger × LogHandler) × GlobalState :=
  (Create opts jsonOutput attrs, g)

/-- `SetDefaults(opts, jsonOutput, attributes...)`: calls `Create`, then
`slog.SetDefault(logger)`, and returns only the handler. -/
def SetDefaults (opts : HandlerOptions) (jsonOutput : Bool)
    (attrs : List (String × String)) (g : GlobalState) :
    LogHandler × GlobalState :=
  let r := CreateW opts jsonOutput attrs g
  let logger := r.1.1
  let handler := r.1.2
  (handler, { r.2 with defaultLogger := some logger })

/-- `slog.LevelError + 4`, the severity `Fatal` logs at. -/
def LevelFatal : Int := LevelError + 4

/-- A slog handler's `Enabled` test: a record at `level` is emitted when
`level >= ` the minimum level read from the shared cell. -/
def loggerEnabled (cellLevel level : Int) : Bool := decide (cellLevel ≤ level)

/-- `Fatal(log, message, ...)`: `log.Log(ctx, slog.LevelError+4, message)`
followed by `os.Exit(1)`. `cellLevel` is the value the logger's shared
cell holds when `Fatal` runs; the first component is the record the
`Log` call emits (`none` when the handler's `Enabled` rejects it), the
second is the process exit status — the embedding of a call that never
returns. -/
def Fatal (cellLevel : Int) (message : String) : Option (Int × String) × Nat :=
  ((if loggerEnabled cellLevel LevelFatal then some (LevelFatal, message) else none), 1)

/-- Sequential run of many requests against one handler (catalogue
variant): thread the handler state produced by each `ServeHTTP` call. -/
def applyCat (h : LogHandler) (r : Request) : LogHandler := (ServeHTTPCat h r).handler

/-- Sequential run of many requests against one handler (text variant). -/
def applyText (h : LogHandler) (r : Request) : LogHandler := (ServeHTTPText h r).handler

/-- Handler state after a list of requests, catalogue variant. -/
def runCat (h : LogHandler) (rs : List Request) : LogHandler := rs.foldl applyCat h

/-- Handler state after a list of requests, text variant. -/
def runText (h : LogHandler) (rs : List Request) : LogHandler := rs.foldl applyText h

example : levelString LevelInfo = "INFO" := by decide
example : levelString LevelDebug = "DEBUG" := by decide
example : levelString 16 = "ERROR+8" := by decide
example : levelString 3 = "INFO+3" := by decide
example : ParseLevel "Debug" = (-4, true) := by decide
example : ParseLevel "bogus" = (0, false) := by decide
example : LevelsString = "DEBUG, INFO, WARN, ERROR" := by decide
example : goSplit "/log/WARN" = ["", "log", "WARN"] := by decide
example : goSplit "" = [""] := by decide
example : goSplit "/log/" = ["", "log", ""] := by decide
example : unmarshalLevel "ERROR+8" = some 16 := by decide
example : unmarshalLevel "warn" = some 4 := by decide
example : unmarshalLevel "bogus" = none := by decide
example : unmarshalLevel "" = none := by decide
example : atoi "+8" = some 8 := by decide
example :
    ServeHTTPText ⟨0, 0⟩ ⟨"PUT", "/log/ERROR+8", "", [], ""⟩ =
      ⟨202, "", ⟨0, 16⟩, some ("log level set", "ERROR+8")⟩ := by decide

theorem goSplitList_ne_nil (sep : Char) (cs : List Char) : goSplitList sep cs ≠ [] := by
  cases cs with
  | nil => simp [goSplitList]
  | cons c rest =>
    unfold goSplitList
    cases hrec : goSplitList sep rest with
    | nil => simp
    | cons g gs => dsimp only; split <;> simp

theorem goSplit_length_pos (path : String) : 0 < (goSplit path).length :=
  List.length_pos.mpr (goSplitList_ne_nil '/' path.data)

theorem goSplitList_length (sep : Char) (cs : List Char) :
    (goSplitList sep cs).length = cs.count sep + 1 := by
  induction cs with
  | nil => simp [goSplitList]
  | cons c rest ih =>
    unfold goSplitList
    cases hrec : goSplitList sep rest with
    | nil => exact absurd hrec (goSplitList_ne_nil sep rest)
    | cons g gs =>
      rw [hrec] at ih
      dsimp only
      by_cases hc : c = sep
      · subst hc
        rw [if_pos rfl]
        simp [List.count_cons] at ih ⊢
        omega
      · rw [if_neg hc]
        simp [List.count_cons, hc] at ih ⊢
        omega

theorem goSplitList_trailing_sep (sep : Char) (cs : List Char) :
    (goSplitList sep (cs ++ [sep])).getLast? = some "" := by
  induction cs with
  | nil =>
    show (goSplitList sep [sep]).getLast? = some ""
    unfold goSplitList
    simp [goSplitList]
  | cons c rest ih =>
    show (goSplitList sep (c :: (rest ++ [sep]))).getLast? = some ""
    unfold goSplitList
    cases hrec : goSplitList sep (rest ++ [sep]) with
    | nil => exact absurd hrec (goSplitList_ne_nil sep (rest ++ [sep]))
    | cons g gs =>
      have hlen : (g :: gs).length = (rest ++ [sep]).count sep + 1 := by
        rw [← hrec]; exact goSplitList_length sep (rest ++ [sep])
      have hcount : 1 ≤ (rest ++ [sep]).count sep := by
        simp [List.count_append]
      have hgs : gs ≠ [] := by
        intro hnil
        rw [hnil] at hlen
        simp [List.count_append] at hlen
      obtain ⟨g2, gs2, rfl⟩ := List.exists_cons_of_ne_nil hgs
      rw [hrec] at ih
      rw [List.getLast?_cons_cons] at ih
      dsimp only
      by_cases hc : c = sep
      · rw [if_pos hc, List.getLast?_cons_cons, List.getLast?_cons_cons]
        exact ih
      · rw [if_neg hc, List.getLast?_cons_cons]
        exact ih

theorem goSplit_trailing_slash (q : String) : (goSplit (q ++ "/")).getLastD "" = "" := by
  have hdata : (q ++ "/").data = q.data ++ ['/'] := rfl
  unfold goSplit
  rw [hdata, List.getLastD_eq_getLast?, goSplitList_trailing_sep]
  rfl

theorem parseLevel_canonical :
    ∀ level ∈ levels, ParseLevel (levelString level) = (level, true) := by decide

theorem unmarshal_canonical :
    ∀ level ∈ levels, unmarshalLevel (levelString level) = some level := by decide

theorem serveCat_get (h : LogHandler) (r : Request) (hm : r.method = "GET") :
    ServeHTTPCat h r = ⟨200, levelString h.current, h, none⟩ := by
  unfold ServeHTTPCat
  rw [hm]
  simp

theorem serveText_get (h : LogHandler) (r : Request) (hm : r.method = "GET") :
    ServeHTTPText h r = ⟨200, levelString h.current, h, none⟩ := by
  unfold ServeHTTPText
  rw [hm]
  simp

theorem serveCat_put_success (h : LogHandler) (r : Request) (lvl : Int)
    (hm : r.method = "PUT" ∨ r.method = "POST")
    (hx : ParseLevel ((goSplit r.path).getLastD "") = (lvl, true)) :
    ServeHTTPCat h r = ⟨202, "", ⟨h.init, lvl⟩, some ("log level set", levelString lvl)⟩ := by
  have hne : ¬((goSplit r.path).length = 0) :=
    Nat.pos_iff_ne_zero.mp (goSplit_length_pos r.path)
  unfold ServeHTTPCat
  rw [List.getLastD_eq_getLast?] at hx
  rcases hm with hm | hm <;> rw [hm] <;> simp [hne, hx]

theorem serveText_put_success (h : LogHandler) (r : Request) (lvl : Int)
    (hm : r.method = "PUT" ∨ r.method = "POST")
    (hx : unmarshalLevel ((goSplit r.path).getLastD "") = some lvl) :
    ServeHTTPText h r = ⟨202, "", ⟨h.init, lvl⟩, some ("log level set", levelString lvl)⟩ := by
  have hne : ¬((goSplit r.path).length = 0) :=
    Nat.pos_iff_ne_zero.mp (goSplit_length_pos r.path)
  unfold ServeHTTPText
  rw [List.getLastD_eq_getLast?] at hx
  rcases hm with hm | hm <;> rw [hm] <;> simp [hne, hx]

theorem serveCat_put_fail (h : LogHandler) (r : Request)
    (hm : r.method = "PUT" ∨ r.method = "POST")
    (hx : (ParseLevel ((goSplit r.path).getLastD "")).2 = false) :
    ServeHTTPCat h r =
      ⟨400,
       "unknown log level \"" ++ (goSplit r.path).getLastD "" ++ "\", specify one of " ++
         LevelsString,
       h, none⟩ := by
  have hne : ¬((goSplit r.path).length = 0) :=
    Nat.pos_iff_ne_zero.mp (goSplit_length_pos r.path)
  unfold ServeHTTPCat
  rw [List.getLastD_eq_getLast?] at hx
  rcases hm with hm | hm <;> rw [hm] <;> simp [hne, hx]

theorem serveText_put_fail (h : LogHandler) (r : Request)
    (hm : r.method = "PUT" ∨ r.method = "POST")
    (hx : unmarshalLevel ((goSplit r.path).getLastD "") = none) :
    ServeHTTPText h r =
      ⟨400, "unknown log level \"" ++ (goSplit r.path).getLastD "" ++ "\"", h, none⟩ := by
  have hne : ¬((goSplit r.path).length = 0) :=
    Nat.pos_iff_ne_zero.mp (goSplit_length_pos r.path)
  unfold ServeHTTPText
  rw [List.getLastD_eq_getLast?] at hx
  rcases hm with hm | hm <;> rw [hm] <;> simp [hne, hx]

theorem serveCat_delete (h : LogHandler) (r : Request) (hm : r.method = "DELETE") :
    ServeHTTPCat h r =
      ⟨202, "", ⟨h.init, h.init⟩, some ("log level reset", levelString h.init)⟩ := by
  unfold ServeHTTPCat
  rw [hm]
  simp

theorem serveText_delete (h : LogHandler) (r : Request) (hm : r.method = "DELETE") :
    ServeHTTPText h r =
      ⟨202, "", ⟨h.init, h.init⟩, some ("log level reset", levelString h.init)⟩ := by
  unfold ServeHTTPText
  rw [hm]
  simp

theorem serveCat_other (h : LogHandler) (r : Request)
    (h1 : r.method ≠ "GET") (h2 : r.method ≠ "PUT") (h3 : r.method ≠ "POST")
    (h4 : r.method ≠ "DELETE") :
    ServeHTTPCat h r = ⟨405, "", h, none⟩ := by
  unfold ServeHTTPCat
  simp [h1, h2, h3, h4]

theorem serveText_other (h : LogHandler) (r : Request)
    (h1 : r.method ≠ "GET") (h2 : r.method ≠ "PUT") (h3 : r.method ≠ "POST")
    (h4 : r.method ≠ "DELETE") :
    ServeHTTPText h r = ⟨405, "", h, none⟩ := by
  unfold ServeHTTPText
  simp [h1, h2, h3, h4]

theorem serveCat_handler_init (h : LogHandler) (r : Request) :
    (ServeHTTPCat h r).handler.init = h.init := by
  by_cases h1 : r.method = "GET"
  · rw [serveCat_get h r h1]
  · by_cases h2 : r.method = "PUT" ∨ r.method = "POST"
    · by_cases h3 : (ParseLevel ((goSplit r.path).getLastD "")).2 = false
      · rw [serveCat_put_fail h r h2 h3]
      · have h3' : (ParseLevel ((goSplit r.path).getLastD "")).2 = true := by
          revert h3
          cases (ParseLevel ((goSplit r.path).getLastD "")).2 <;> simp
        have h4 : ParseLevel ((goSplit r.path).getLastD "") =
            ((ParseLevel ((goSplit r.path).getLastD "")).1, true) := by
          rw [← h3']
        rw [serveCat_put_success h r _ h2 h4]
    · by_cases h5 : r.method = "DELETE"
      · rw [serveCat_delete h r h5]
      · push_neg at h2
        rw [serveCat_other h r h1 h2.1 h2.2 h5]

theorem serveText_handler_init (h : LogHandler) (r : Request) :
    (ServeHTTPText h r).handler.init = h.init := by
  by_cases h1 : r.method = "GET"
  · rw [serveText_get h r h1]
  · by_cases h2 : r.method = "PUT" ∨ r.method = "POST"
    · by_cases h3 : unmarshalLevel ((goSplit r.path).getLastD "") = none
      · rw [serveText_put_fail h r h2 h3]
      · obtain ⟨lvl, hx⟩ := Option.ne_none_iff_exists'.mp h3
        rw [serveText_put_success h r lvl h2 hx]
    · by_cases h5 : r.method = "DELETE"
      · rw [serveText_delete h r h5]
      · push_neg at h2
        rw [serveText_other h r h1 h2.1 h2.2 h5]

theorem runCat_init (h : LogHandler) (rs : List Request) : (runCat h rs).init = h.init := by
  induction rs generalizing h with
  | nil => rfl
  | cons r rs ih =>
    show (runCat (applyCat h r) rs).init = h.init
    rw [ih]
    exact serveCat_handler_init h r

theorem runText_init (h : LogHandler) (rs : List Request) : (runText h rs).init = h.init := by
  induction rs generalizing h with
  | nil => rfl
  | cons r rs ih =>
    show (runText (applyText h r) rs).init = h.init
    rw [ih]
    exact serveText_handler_init h r

/-- C1: for every catalogue level X, a PUT or POST whose last path segment
is X's canonical name sets the shared level cell to X and responds
202 Accepted with empty body, and a subsequent GET responds 200 with
exactly X's canonical name as the body — in both handler variants. -/
theorem C1_put_get_roundtrip (h : LogHandler) (r rg : Request) (L : Int)
    (hL : L ∈ levels)
    (hm : r.method = "PUT" ∨ r.method = "POST")
    (hx : (goSplit r.path).getLastD "" = levelString L)
    (hg : rg.method = "GET") :
    ServeHTTPCat h r = ⟨202, "", ⟨h.init, L⟩, some ("log level set", levelString L)⟩ ∧
    ServeHTTPCat ⟨h.init, L⟩ rg = ⟨200, levelString L, ⟨h.init, L⟩, none⟩ ∧
    ServeHTTPText h r = ⟨202, "", ⟨h.init, L⟩, some ("log level set", levelString L)⟩ ∧
    ServeHTTPText ⟨h.init, L⟩ rg = ⟨200, levelString L, ⟨h.init, L⟩, none⟩ := by
  refine ⟨?_, ?_, ?_, ?_⟩
  · exact serveCat_put_success h r L hm (by rw [hx]; exact parseLevel_canonical L hL)
  · exact serveCat_get ⟨h.init, L⟩ rg hg
  · exact serveText_put_success h r L hm (by rw [hx]; exact unmarshal_canonical L hL)
  · exact serveText_get ⟨h.init, L⟩ rg hg

theorem C1_witness :
    (4 : Int) ∈ levels ∧
    (goSplit "/log/WARN").getLastD "" = levelString 4 ∧
    ServeHTTPCat ⟨0, 0⟩ ⟨"PUT", "/log/WARN", "", [], ""⟩ =
      ⟨202, "", ⟨0, 4⟩, some ("log level set", levelString 4)⟩ ∧
    ServeHTTPCat ⟨0, 4⟩ ⟨"GET", "/log", "", [], ""⟩ =
      ⟨200, levelString 4, ⟨0, 4⟩, none⟩ :=
  have h := C1_put_get_roundtrip ⟨0, 0⟩ ⟨"PUT", "/log/WARN", "", [], ""⟩
    ⟨"GET", "/log", "", [], ""⟩ 4 (by decide) (Or.inl rfl) (by decide) rfl
  ⟨by decide, by decide, h.1, h.2.1⟩

/-- C2: for a PUT or POST whose last path segment fails the variant's
level parser, the handler responds 400 with a body naming the invalid
input (the catalogue variant also appending `LevelsString`), leaves the
cell unchanged, and emits no info-level record. -/
theorem C2_put_parse_failure (h : LogHandler) (r : Request)
    (hm : r.method = "PUT" ∨ r.method = "POST") :
    ((ParseLevel ((goSplit r.path).getLastD "")).2 = false →
      ServeHTTPCat h r =
        ⟨400,
         "unknown log level \"" ++ (goSplit r.path).getLastD "" ++ "\", specify one of " ++
           LevelsString,
         h, none⟩) ∧
    (unmarshalLevel ((goSplit r.path).getLastD "") = none →
      ServeHTTPText h r =
        ⟨400, "unknown log level \"" ++ (goSplit r.path).getLastD "" ++ "\"", h, none⟩) :=
  ⟨fun hx => serveCat_put_fail h r hm hx, fun hx => serveText_put_fail h r hm hx⟩

theorem C2_witness :
    (ParseLevel ((goSplit "/log/bogus").getLastD "")).2 = false ∧
    unmarshalLevel ((goSplit "/log/bogus").getLastD "") = none ∧
    ServeHTTPCat ⟨0, 0⟩ ⟨"PUT", "/log/bogus", "", [], ""⟩ =
      ⟨400,
       "unknown log level \"" ++ (goSplit "/log/bogus").getLastD "" ++ "\", specify one of " ++
         LevelsString,
       ⟨0, 0⟩, none⟩ ∧
    ServeHTTPText ⟨0, 0⟩ ⟨"PUT", "/log/bogus", "", [], ""⟩ =
      ⟨400, "unknown log level \"" ++ (goSplit "/log/bogus").getLastD "" ++ "\"", ⟨0, 0⟩, none⟩ :=
  have h := C2_put_parse_failure ⟨0, 0⟩ ⟨"PUT", "/log/bogus", "", [], ""⟩ (Or.inl rfl)
  ⟨by decide, by decide, h.1 (by decide), h.2 (by decide)⟩

/-- C3: every DELETE resets the shared cell to the initial level captured
at construction and responds 202 Accepted with empty body; this holds
after any prior request sequence, so repeated DELETEs are idempotent on
the cell state — in both handler variants. -/
theorem C3_delete_idempotent_reset (opts : HandlerOptions) (json : Bool)
    (attrs : List (String × String)) (rs : List Request) (r : Request)
    (hm : r.method = "DELETE") :
    ServeHTTPCat (runCat (Create opts json attrs).2 rs) r =
      ⟨202, "", ⟨opts.level, opts.level⟩, some ("log level reset", levelString opts.level)⟩ ∧
    ServeHTTPText (runText (Create opts json attrs).2 rs) r =
      ⟨202, "", ⟨opts.level, opts.level⟩, some ("log level reset", levelString opts.level)⟩ := by
  have hc : (runCat (Create opts json attrs).2 rs).init = opts.level :=
    runCat_init (Create opts json attrs).2 rs
  have ht : (runText (Create opts json attrs).2 rs).init = opts.level :=
    runText_init (Create opts json attrs).2 rs
  constructor
  · rw [serveCat_delete _ r hm, hc]
  · rw [serveText_delete _ r hm, ht]

theorem C3_witness :
    ServeHTTPCat (runCat (Create ⟨0, false⟩ false []).2
        [⟨"PUT", "/log/error", "", [], ""⟩, ⟨"PUT", "/log/warn", "", [], ""⟩])
        ⟨"DELETE", "/log", "", [], ""⟩ =
      ⟨202, "", ⟨0, 0⟩, some ("log level reset", levelString 0)⟩ ∧
    ServeHTTPText (runText (Create ⟨0, false⟩ false []).2
        [⟨"PUT", "/log/error", "", [], ""⟩, ⟨"PUT", "/log/warn", "", [], ""⟩])
        ⟨"DELETE", "/log", "", [], ""⟩ =
      ⟨202, "", ⟨0, 0⟩, some ("log level reset", levelString 0)⟩ :=
  C3_delete_idempotent_reset ⟨0, false⟩ false []
    [⟨"PUT", "/log/error", "", [], ""⟩, ⟨"PUT", "/log/warn", "", [], ""⟩]
    ⟨"DELETE", "/log", "", [], ""⟩ rfl

/-- C4: `ParseLevel` maps every catalogue level's canonical name back to
that level with `found = true`, is case-insensitive (it depends only on
the lowercased input), and returns `found = false` on every string that
does not case-insensitively match a catalogue name — it is a total
function, so it cannot panic. -/
theorem C4_parse_level :
    (∀ L ∈ levels, ParseLevel (levelString L) = (L, true)) ∧
    (∀ s t : String, goToLower s = goToLower t → ParseLevel s = ParseLevel t) ∧
    (∀ s : String, (∀ L ∈ levels, goToLower s ≠ goToLower (levelString L)) →
      (ParseLevel s).2 = false) := by
  refine ⟨parseLevel_canonical, ?_, ?_⟩
  · intro s t hst
    unfold ParseLevel
    rw [hst]
  · intro s hs
    have h1 : goToLower s ≠ "debug" := by
      have e : goToLower (levelString LevelDebug) = "debug" := by decide
      have hx := hs LevelDebug (by decide)
      rw [e] at hx
      exact hx
    have h2 : goToLower s ≠ "info" := by
      have e : goToLower (levelString LevelInfo) = "info" := by decide
      have hx := hs LevelInfo (by decide)
      rw [e] at hx
      exact hx
    have h3 : goToLower s ≠ "warn" := by
      have e : goToLower (levelString LevelWarn) = "warn" := by decide
      have hx := hs LevelWarn (by decide)
      rw [e] at hx
      exact hx
    have h4 : goToLower s ≠ "error" := by
      have e : goToLower (levelString LevelError) = "error" := by decide
      have hx := hs LevelError (by decide)
      rw [e] at hx
      exact hx
    have hmap : levelMap = [("debug", LevelDebug), ("info", LevelInfo),
        ("warn", LevelWarn), ("error", LevelError)] := by decide
    have b1 : (goToLower s == "debug") = false := beq_eq_false_iff_ne.mpr h1
    have b2 : (goToLower s == "info") = false := beq_eq_false_iff_ne.mpr h2
    have b3 : (goToLower s == "warn") = false := beq_eq_false_iff_ne.mpr h3
    have b4 : (goToLower s == "error") = false := beq_eq_false_iff_ne.mpr h4
    unfold ParseLevel
    rw [hmap]
    simp [List.lookup, b1, b2, b3, b4]

theorem C4_witness :
    ParseLevel (levelString (-4)) = (-4, true) ∧
    ParseLevel "DEBUG" = ParseLevel "Debug" ∧
    (ParseLevel "bogus").2 = false :=
  ⟨C4_parse_level.1 (-4) (by decide),
   C4_parse_level.2.1 "DEBUG" "Debug" (by decide),
   C4_parse_level.2.2 "bogus" (by decide)⟩

/-- C5: splitting any path on `/` yields at least one (possibly empty)
segment, so the usage-hint 400 branch guarding the no-segments case is
unreachable; a PUT or POST whose path ends in `/` has an empty last
segment, which fails both parsers and falls through to the same
unknown-level 400 response, with the cell unchanged and no info record. -/
theorem C5_trailing_slash (h : LogHandler) (q : String) (r : Request)
    (hm : r.method = "PUT" ∨ r.method = "POST")
    (hp : r.path = q ++ "/") :
    (∀ path : String, 0 < (goSplit path).length) ∧
    ServeHTTPCat h r =
      ⟨400, "unknown log level \"" ++ "" ++ "\", specify one of " ++ LevelsString, h, none⟩ ∧
    ServeHTTPText h r = ⟨400, "unknown log level \"" ++ "" ++ "\"", h, none⟩ := by
  have hlast : (goSplit r.path).getLastD "" = "" := by
    rw [hp]
    exact goSplit_trailing_slash q
  refine ⟨goSplit_length_pos, ?_, ?_⟩
  · have hc := serveCat_put_fail h r hm (by rw [hlast]; decide)
    rw [hc, hlast]
  · have hc := serveText_put_fail h r hm (by rw [hlast]; decide)
    rw [hc, hlast]

theorem C5_witness :
    ("/log/" : String) = "/log" ++ "/" ∧
    ServeHTTPCat ⟨0, 0⟩ ⟨"PUT", "/log/", "", [], ""⟩ =
      ⟨400, "unknown log level \"" ++ "" ++ "\", specify one of " ++ LevelsString, ⟨0, 0⟩,
       none⟩ ∧
    ServeHTTPText ⟨0, 0⟩ ⟨"PUT", "/log/", "", [], ""⟩ =
      ⟨400, "unknown log level \"" ++ "" ++ "\"", ⟨0, 0⟩, none⟩ :=
  have h := C5_trailing_slash ⟨0, 0⟩ "/log" ⟨"PUT", "/log/", "", [], ""⟩ (Or.inl rfl) (by decide)
  ⟨by decide, h.2.1, h.2.2⟩

/-- C6: the handler's outcome is a function of the HTTP method, the URL
path, and the current handler state only — requests agreeing on method
and path get identical status, body, resulting cell value and emission,
whatever their query, headers or body; and any method other than GET,
PUT, POST, DELETE yields 405 with empty body and no mutation. -/
theorem C6_deterministic (h : LogHandler) (r r2 : Request)
    (hm : r.method = r2.method) (hp : r.path = r2.path) :
    ServeHTTPCat h r = ServeHTTPCat h r2 ∧
    ServeHTTPText h r = ServeHTTPText h r2 ∧
    (r.method ≠ "GET" → r.method ≠ "PUT" → r.method ≠ "POST" → r.method ≠ "DELETE" →
      ServeHTTPCat h r = ⟨405, "", h, none⟩ ∧ ServeHTTPText h r = ⟨405, "", h, none⟩) := by
  refine ⟨?_, ?_, fun h1 h2 h3 h4 =>
    ⟨serveCat_other h r h1 h2 h3 h4, serveText_other h r h1 h2 h3 h4⟩⟩
  · unfold ServeHTTPCat
    rw [hm, hp]
  · unfold ServeHTTPText
    rw [hm, hp]

theorem C6_witness :
    ServeHTTPCat ⟨0, 3⟩ ⟨"PATCH", "/log", "a", [("H", "1")], "b1"⟩ =
      ServeHTTPCat ⟨0, 3⟩ ⟨"PATCH", "/log", "c", [("H", "2")], "b2"⟩ ∧
    ServeHTTPText ⟨0, 3⟩ ⟨"PATCH", "/log", "a", [("H", "1")], "b1"⟩ =
      ServeHTTPText ⟨0, 3⟩ ⟨"PATCH", "/log", "c", [("H", "2")], "b2"⟩ ∧
    ServeHTTPCat ⟨0, 3⟩ ⟨"PATCH", "/log", "a", [("H", "1")], "b1"⟩ = ⟨405, "", ⟨0, 3⟩, none⟩ :=
  have h := C6_deterministic ⟨0, 3⟩ ⟨"PATCH", "/log", "a", [("H", "1")], "b1"⟩
    ⟨"PATCH", "/log", "c", [("H", "2")], "b2"⟩ rfl rfl
  ⟨h.1, h.2.1, (h.2.2 (by decide) (by decide) (by decide) (by decide)).1⟩

/-- C8: `Create` allocates the logger, the shared cell and the handler
and does nothing else — in particular the process-wide default-logger
slot passes through untouched; `SetDefaults` is exactly `Create` followed
by publishing the created logger as the process-wide default, and it
returns only the control handler. -/
theorem C8_create_pure_setdefaults (opts : HandlerOptions) (json : Bool)
    (attrs : List (String × String)) (g : GlobalState) :
    (CreateW opts json attrs g).2 = g ∧
    SetDefaults opts json attrs g =
      ((CreateW opts json attrs g).1.2,
       { defaultLogger := some (CreateW opts json attrs g).1.1 }) :=
  ⟨rfl, rfl⟩

/-- C9 counterexample: the claim "the record is emitted regardless of the
current threshold in the Shared Level Cell" fails on the code: the text
variant's `PUT /log/ERROR+8` drives the shared cell to 16, strictly above
`Fatal`'s severity `LevelError+4 = 12`, and `Fatal` then emits no record
at all (though it still exits with status 1). -/
theorem C9_counterexample :
    (ServeHTTPText ⟨0, 0⟩ ⟨"PUT", "/log/ERROR+8", "", [], ""⟩).handler.current = 16 ∧
    Fatal 16 "unrecoverable" = (none, 1) := by decide

/-- C9 (amended): `Fatal` logs one record at severity `LevelError+4`,
strictly above every catalogue level, so the record is emitted whenever
the shared cell holds a threshold of at most `LevelError+4` — in
particular at every catalogue level — and the call always terminates the
process with exit status 1 (it never returns). -/
theorem C9_fatal_amended (cell : Int) (msg : String) (hcell : cell ≤ LevelFatal) :
    Fatal cell msg = (some (LevelFatal, msg), 1) ∧
    (∀ u : Int, (Fatal u msg).2 = 1) ∧
    (∀ L ∈ levels, L < LevelFatal) := by
  refine ⟨?_, fun u => rfl, by decide⟩
  simp [Fatal, loggerEnabled, hcell]

theorem C9_witness :
    (8 : Int) ≤ LevelFatal ∧ Fatal 8 "boom" = (some (LevelFatal, "boom"), 1) :=
  ⟨by decide, (C9_fatal_amended 8 "boom" (by decide)).1⟩

/-- C10: immediately after construction with initial level L the shared
cell holds L, which equals the reset target, a GET responds 200 with L's
canonical name (level `info` yields body `"INFO"`), and a DELETE at that
point leaves the cell value unchanged — in both handler variants. -/
theorem C10_initial_state (opts : HandlerOptions) (json : Bool)
    (attrs : List (String × String)) (rg rd : Request)
    (hg : rg.method = "GET") (hd : rd.method = "DELETE") :
    (Create opts json attrs).2.current = opts.level ∧
    (Create opts json attrs).2.current = (Create opts json attrs).2.init ∧
    ServeHTTPCat (Create opts json attrs).2 rg =
      ⟨200, levelString opts.level, (Create opts json attrs).2, none⟩ ∧
    ServeHTTPText (Create opts json attrs).2 rg =
      ⟨200, levelString opts.level, (Create opts json attrs).2, none⟩ ∧
    (ServeHTTPCat (Create opts json attrs).2 rd).handler = (Create opts json attrs).2 ∧
    (ServeHTTPText (Create opts json attrs).2 rd).handler = (Create opts json attrs).2 := by
  refine ⟨rfl, rfl, ?_, ?_, ?_, ?_⟩
  · exact serveCat_get _ rg hg
  · exact serveText_get _ rg hg
  · rw [serveCat_delete _ rd hd]
    rfl
  · rw [serveText_delete _ rd hd]
    rfl

theorem C10_witness :
    ServeHTTPCat (Create ⟨0, false⟩ false []).2 ⟨"GET", "/log", "", [], ""⟩ =
      ⟨200, "INFO", ⟨0, 0⟩, none⟩ ∧
    (ServeHTTPCat (Create ⟨0, false⟩ false []).2 ⟨"DELETE", "/log", "", [], ""⟩).handler =
      (Create ⟨0, false⟩ false []).2 :=
  have h := C10_initial_state ⟨0, false⟩ false [] ⟨"GET", "/log", "", [], ""⟩
    ⟨"DELETE", "/log", "", [], ""⟩ rfl rfl
  ⟨h.2.2.1, h.2.2.2.2.1⟩

end Slogging
